import Mathlib

/-
  Verification development for sunpy/io/_file_tools.py.

  The module is embedded shallowly: a byte stream is a List Nat (each entry
  a byte value below 256), a file path is a String, and the three reader
  modules (fits, _jp2, ana) are abstract Handler tokens whose availability
  (the try/except import succeeding) is a Bool parameter.  Gzip
  decompression is external to the module, so the decompressed byte content
  of the underlying resource is passed as a second list argument and is
  consulted exactly where the source calls gzip.open.
-/

namespace SunpyIO

/-- Bytes of the ASCII marker found at the start of ASDF files
(source: first80.startswith of the 5-byte marker, line 234). -/
def asdfMarker : List Nat := [35, 65, 83, 68, 70]

/-- The 3-byte gzip magic 1F 8B 08 compared against first80 (line 239). -/
def gzipMagic : List Nat := [31, 139, 8]

/-- The 8-byte HDF5 / netcdf4 magic 89 48 44 46 0D 0A 1A 0A (line 259). -/
def hdf5Magic : List Nat := [137, 72, 68, 70, 13, 10, 26, 10]

/-- First JP2 signature box, 12 bytes (line 253). -/
def jp2Signature1 : List Nat := [0, 0, 0, 12, 106, 80, 32, 32, 13, 10, 135, 10]

/-- Second JP2 signature box, 12 bytes (line 254). -/
def jp2Signature2 : List Nat := [0, 0, 0, 12, 106, 80, 26, 26, 13, 10, 135, 10]

/-- The lowercase-hex CDF magic strings compared against the hex rendering
of the first 4 bytes (line 262). -/
def cdfMagics : List String := ["cdf30001", "cdf26002", "0000ffff"]

/-- Model of fp.readline on a byte list: returns the first line (up to and
including the first newline byte 10, or the whole list if none) together
with the rest of the list. -/
def readlineSplit : List Nat → List Nat × List Nat
  | [] => ([], [])
  | b :: rest =>
    if b = 10 then ([b], rest)
    else
      let p := readlineSplit rest
      (b :: p.1, p.2)

/-- Concatenation of the first two lines of the stream, as the source
computes line1 + line2 for the JP2 signature comparison (lines 222-223
and 256). -/
def line12 (c : List Nat) : List Nat :=
  (readlineSplit c).1 ++ (readlineSplit (readlineSplit c).2).1

/-- One hex digit, lowercase, as produced by the Python bytes.hex method. -/
def hexDigit (n : Nat) : Char :=
  if n < 10 then Char.ofNat (48 + n) else Char.ofNat (87 + n)

/-- Lowercase two-digit hex rendering of one byte (bytes.hex renders each
byte with exactly two digits; byte values are below 256). -/
def byteHex (b : Nat) : String :=
  String.mk [hexDigit (b / 16 % 16), hexDigit (b % 16)]

/-- Lowercase hex rendering of a byte list, modelling bytes.hex (line 230). -/
def bytesHex (bs : List Nat) : String :=
  String.join (bs.map byteHex)

/-- True on bytes that the regex class of upper-case letters, digits and
underscore accepts (the bracket class in the FITS card regex, line 245). -/
def isKeywordByte (b : Nat) : Bool :=
  (65 ≤ b && b ≤ 90) || (48 ≤ b && b ≤ 57) || b == 95

/-- Matcher for the regex tail of zero or more spaces followed by the
equals byte 61, anchored at the head of the list. -/
def spacesThenEq : List Nat → Bool
  | [] => false
  | b :: rest =>
    if b = 61 then true
    else if b = 32 then spacesThenEq rest
    else false

/-- Matcher for the anchored regex of at most fuel keyword-class bytes
followed by spaces and an equals byte: true exactly when some k at most
fuel exists with the first k bytes in the keyword class and the remainder
starting with spaces-then-equals.  The source regex (line 245) uses the
bound 8 on the repetition. -/
def fitsMatch : Nat → List Nat → Bool
  | 0, bs => spacesThenEq bs
  | _ + 1, [] => false
  | fuel + 1, b :: rest => spacesThenEq (b :: rest) || (isKeywordByte b && fitsMatch fuel rest)

/-- The ASDF branch condition (line 234): the 80-byte probe starts with the
ASDF marker. -/
def asdfHit (c : List Nat) : Prop := (c.take 80).take 5 = asdfMarker

instance (c : List Nat) : Decidable (asdfHit c) :=
  inferInstanceAs (Decidable ((c.take 80).take 5 = asdfMarker))

/-- The gzip branch condition (line 239): the first 3 bytes of the 80-byte
probe equal the gzip magic. -/
def gzipHit (c : List Nat) : Prop := (c.take 80).take 3 = gzipMagic

instance (c : List Nat) : Decidable (gzipHit c) :=
  inferInstanceAs (Decidable ((c.take 80).take 3 = gzipMagic))

/-- The 80-byte probe actually tested by the FITS regex: when the gzip
magic is present the source re-reads 80 bytes from the decompressed
resource (lines 239-241), otherwise the original probe is used. -/
def effective80 (c g : List Nat) : List Nat :=
  if gzipHit c then g.take 80 else c.take 80

/-- The FITS branch condition (lines 244-246): the possibly decompressed
80-byte probe matches the keyword-card regex. -/
def fitsHit (c g : List Nat) : Prop := fitsMatch 8 (effective80 c g) = true

instance (c g : List Nat) : Decidable (fitsHit c g) :=
  inferInstanceAs (Decidable (fitsMatch 8 (effective80 c g) = true))

/-- The JP2 branch condition (lines 253-257): the concatenation of the
first two lines equals one of the two signature boxes. -/
def jp2Hit (c : List Nat) : Prop :=
  line12 c = jp2Signature1 ∨ line12 c = jp2Signature2

instance (c : List Nat) : Decidable (jp2Hit c) :=
  inferInstanceAs (Decidable (_ ∨ _))

/-- The HDF5 branch condition (line 259): the first 8 bytes equal the HDF5
magic. -/
def hdf5Hit (c : List Nat) : Prop := c.take 8 = hdf5Magic

instance (c : List Nat) : Decidable (hdf5Hit c) :=
  inferInstanceAs (Decidable (c.take 8 = hdf5Magic))

/-- The CDF branch condition (line 262): the hex rendering of the first 4
bytes is one of the CDF magic strings. -/
def cdfHit (c : List Nat) : Prop := bytesHex (c.take 4) ∈ cdfMagics

instance (c : List Nat) : Decidable (cdfHit c) :=
  inferInstanceAs (Decidable (bytesHex (c.take 4) ∈ cdfMagics))

/-- Embedding of detect_filetype (lines 204-265).  The argument c is the
byte content of the stream, g the decompressed byte content of the same
resource (consulted only when the gzip magic is present).  The value none
models raising UnrecognizedFileTypeError; some tag models returning tag.
The branch order is exactly that of the source: ASDF, then gzip plus the
FITS regex, then JP2, then HDF5, then CDF. -/
def detect_filetype (c g : List Nat) : Option String :=
  if asdfHit c then some ("asdf")
  else if fitsHit c g then some ("fits")
  else if jp2Hit c then some ("jp2")
  else if hdf5Hit c then some ("hdf5")
  else if cdfHit c then some ("cdf")
  else none

/-- Abstract token for one of the three optionally imported reader
modules (fits, _jp2, ana); the module contents are external
collaborators. -/
inductive Handler where
  | fits
  | jp2
  | ana
deriving DecidableEq

/-- Embedding of the _KNOWN_EXTENSIONS dict (lines 28-32): extension
groups paired with their format tag, in insertion order. -/
def _KNOWN_EXTENSIONS : List (List String × String) :=
  [(["fts", "fits"], "fits"),
   (["jp2", "j2k", "jpc", "jpt"], "jp2"),
   (["fz", "f0"], "ana")]

/-- Embedding of the _READERS dict (lines 49-53).  Each value is the
optionally imported reader module: none when the try/except import at the
top of the file failed, modelled by the three availability flags. -/
def _READERS (aF aJ aA : Bool) : List (String × Option Handler) :=
  [("fits", if aF then some Handler.fits else none),
   ("jp2", if aJ then some Handler.jp2 else none),
   ("ana", if aA then some Handler.ana else none)]

/-- The f-string message built by Readers.getitem for an absent reader
(lines 40-44). -/
def readerUnavailableMsg (key : String) : String :=
  "The Reader sunpy.io." ++ key ++ " is not available, please check that you have the required dependencies installed."

/-- Outcome of a registry subscript: ok models returning the module,
readerError models raising ReaderError (value present but None), keyError
models the KeyError propagated by dict.getitem for a missing key. -/
inductive LookupResult where
  | ok (h : Handler)
  | readerError (msg : String)
  | keyError (key : String)
deriving DecidableEq

/-- Embedding of Readers.getitem (lines 34-46): the plain dict lookup,
then the None check raising ReaderError with the message naming the key. -/
def readersGetItem (d : List (String × Option Handler)) (key : String) : LookupResult :=
  match d.lookup key with
  | none => LookupResult.keyError key
  | some none => LookupResult.readerError (readerUnavailableMsg key)
  | some (some h) => LookupResult.ok h

/-- Outcome of a dispatch through _read.  invoked reader pos models
calling getattr on a reader module with the stream whose cursor stands at
byte offset pos; keyError and readerUnavailable model the two registry
failures; unrecognized models the final UnrecognizedFileTypeError raise. -/
inductive ReadOutcome where
  | invoked (reader : String) (pos : Nat)
  | keyError (key : String)
  | readerUnavailable (msg : String)
  | unrecognized
deriving DecidableEq

/-- Stream cursor position after detect_filetype has run: every probe in
detect_filetype re-seeks to 0 first, and the last probe reads 4 bytes
(line 230), so the cursor ends at byte 4, or at the end of a shorter
stream.  No seek happens between detection and the reader call. -/
def posAfterSniff (c : List Nat) : Nat := min 4 c.length

/-- Python str.endswith against a tuple of extension strings: true when
some extension of the group is a raw suffix of the path (line 118). -/
def endsWithAny (path : String) (exts : List String) : Bool :=
  exts.any (fun e => e.data.isSuffixOf path.data)

/-- Python membership test of the filetype argument in an extension tuple
(line 118): None is in no tuple, a string is tested by equality. -/
def optMem : Option String → List String → Bool
  | none, _ => false
  | some f, exts => exts.contains f

/-- The fallback loop of _read (lines 117-119): the first extension group
whose tuple has a raw suffix of the path or holds the filetype token wins
and its reader is subscripted; no group matching models the final raise
(line 121). -/
def extFallback (aF aJ aA : Bool) (path : String) (filetype : Option String) (pos : Nat) : ReadOutcome :=
  match _KNOWN_EXTENSIONS.find? (fun grp => endsWithAny path grp.1 || optMem filetype grp.1) with
  | some grp =>
    match readersGetItem (_READERS aF aJ aA) grp.2 with
    | LookupResult.ok _ => ReadOutcome.invoked grp.2 pos
    | LookupResult.readerError m => ReadOutcome.readerUnavailable m
    | LookupResult.keyError k => ReadOutcome.keyError k
  | none => ReadOutcome.unrecognized

/-- The branch of _read taken when detect_filetype returned a tag (lines
113-115): the reader is subscripted and invoked only when the tag is a key
of _READERS, otherwise control falls through to the extension loop with
filetype still None. -/
def readDetected (aF aJ aA : Bool) (path : String) (tag : String) (pos : Nat) : ReadOutcome :=
  if tag ∈ (_READERS aF aJ aA).map Prod.fst then
    match readersGetItem (_READERS aF aJ aA) tag with
    | LookupResult.ok _ => ReadOutcome.invoked tag pos
    | LookupResult.readerError m => ReadOutcome.readerUnavailable m
    | LookupResult.keyError k => ReadOutcome.keyError k
  else extFallback aF aJ aA path none pos

/-- Embedding of _read (lines 86-121).  With an explicit filetype the
registry is subscripted at once and the reader invoked on the untouched
stream (cursor 0); otherwise detect_filetype runs (leaving the cursor at
posAfterSniff) and on an UnrecognizedFileTypeError, or on a detected tag
that is no registry key, the extension fallback loop runs.  The
function_name argument of the source (read versus get_header) selects
which attribute is invoked and does not affect the dispatch logic, so it
is not carried here. -/
def _read (aF aJ aA : Bool) (path : String) (c g : List Nat) (filetype : Option String) : ReadOutcome :=
  match filetype with
  | some ft =>
    match readersGetItem (_READERS aF aJ aA) ft with
    | LookupResult.ok _ => ReadOutcome.invoked ft 0
    | LookupResult.readerError m => ReadOutcome.readerUnavailable m
    | LookupResult.keyError k => ReadOutcome.keyError k
  | none =>
    match detect_filetype c g with
    | some tag => readDetected aF aJ aA path tag (posAfterSniff c)
    | none => extFallback aF aJ aA path none (posAfterSniff c)

/-- Outcome of write_file: write models invoking the write attribute of a
reader module, unsupported models raising ValueError, the other two model
the registry failures (keyError is unreachable since every extension
group's tag is a registry key). -/
inductive WriteOutcome where
  | write (reader : String)
  | readerUnavailable (msg : String)
  | keyError (key : String)
  | unsupported (msg : String)
deriving DecidableEq

/-- The final segment of the path after the last slash, modelling the
name of a pathlib.PurePosixPath. -/
def pathlibName (path : String) : List Char :=
  (path.data.reverse.takeWhile (fun ch => ch != '/')).reverse

/-- Modelling pathlib suffix with its leading dot stripped, as computed by
write_file (line 196): the part of the name after its last dot, provided
that dot is neither the first nor the last character of the name, else the
empty string. -/
def pySuffixTail (path : String) : String :=
  let name := pathlibName path
  let afterDot := (name.reverse.takeWhile (fun ch => ch != '.')).reverse
  if name.contains '.' ∧ 0 < name.length - afterDot.length - 1 ∧
      name.length - afterDot.length - 1 < name.length - 1 then
    String.mk afterDot
  else ""

/-- The f-string message of the ValueError raised by write_file
(line 201). -/
def unsupportedMsg (ft : String) : String :=
  "The filetype provided (" ++ ft ++ ") is not supported"

/-- The extension loop of write_file (lines 198-201) applied to the
resolved filetype token: the first extension group whose tuple holds the
token (by string equality) selects the reader whose write attribute is
invoked; no group matching models the ValueError raise. -/
def writeResolved (aF aJ aA : Bool) (ft : String) : WriteOutcome :=
  match _KNOWN_EXTENSIONS.find? (fun grp => grp.1.contains ft) with
  | some grp =>
    match readersGetItem (_READERS aF aJ aA) grp.2 with
    | LookupResult.ok _ => WriteOutcome.write grp.2
    | LookupResult.readerError m => WriteOutcome.readerUnavailable m
    | LookupResult.keyError k => WriteOutcome.keyError k
  | none => WriteOutcome.unsupported (unsupportedMsg ft)

/-- Embedding of write_file (lines 171-201).  When filetype is the string
auto it is replaced by the destination suffix without its dot (line 196),
then the extension loop runs on the resolved token.  The data and header
arguments are passed through to the reader untouched and play no part in
the dispatch, so they are not carried here. -/
def write_file (aF aJ aA : Bool) (path : String) (filetype : String) : WriteOutcome :=
  writeResolved aF aJ aA (if filetype = "auto" then pySuffixTail path else filetype)

/-- Helper: the FITS regex matcher rejects any list whose head byte is
neither in the keyword class nor an acceptable spaces-then-equals head. -/
theorem fitsMatch_head_false (f b : Nat) (rest : List Nat)
    (hsp : spacesThenEq (b :: rest) = false) (hkw : isKeywordByte b = false) :
    fitsMatch f (b :: rest) = false := by
  cases f with
  | zero => simpa [fitsMatch] using hsp
  | succ n => simp [fitsMatch, hsp, hkw]

/-- Helper: a list whose take of positive length is a cons starts with
that head element. -/
theorem take_eq_cons_head (l : List Nat) (n a : Nat) (s : List Nat)
    (h : l.take (n + 1) = a :: s) : ∃ r, l = a :: r := by
  cases l with
  | nil => simp at h
  | cons b r =>
    simp [List.take_succ_cons] at h
    exact ⟨r, by rw [h.1]⟩

/-- Helper: a probe that satisfies the FITS branch cannot also satisfy the
ASDF branch: when the gzip magic is present the first byte is 31, not the
marker byte 35, and otherwise the marker byte 35 is outside both regex
character classes and is not the equals byte, so the regex cannot match. -/
theorem fits_not_asdf (c g : List Nat) (hf : fitsHit c g) : ¬ asdfHit c := by
  intro ha
  unfold asdfHit asdfMarker at ha
  obtain ⟨r, hr⟩ := take_eq_cons_head (c.take 80) 4 35 _ ha
  by_cases hg : gzipHit c
  · have hg' : (c.take 80).take 3 = gzipMagic := hg
    rw [hr] at hg'
    simp [gzipMagic, List.take_succ_cons] at hg'
  · unfold fitsHit effective80 at hf
    rw [if_neg hg, hr] at hf
    have hz := fitsMatch_head_false 8 35 r (by simp [spacesThenEq]) (by decide)
    rw [hz] at hf
    simp at hf

/-- Helper: the extension fallback loop invokes a reader only at the
cursor position it was given. -/
theorem extFallback_invoked_pos (aF aJ aA : Bool) (path : String) (ft : Option String)
    (pos : Nat) (r : String) (p : Nat)
    (h : extFallback aF aJ aA path ft pos = ReadOutcome.invoked r p) : p = pos := by
  unfold extFallback at h
  split at h
  · split at h
    · injection h with h1 h2; exact h2.symm
    · cases h
    · cases h
  · cases h

/-- Helper: the detected-tag branch of the dispatcher invokes a reader
only at the cursor position it was given. -/
theorem readDetected_invoked_pos (aF aJ aA : Bool) (path tag : String) (pos : Nat)
    (r : String) (p : Nat)
    (h : readDetected aF aJ aA path tag pos = ReadOutcome.invoked r p) : p = pos := by
  unfold readDetected at h
  split at h
  · split at h
    · injection h with h1 h2; exact h2.symm
    · cases h
    · cases h
  · exact extFallback_invoked_pos aF aJ aA path none pos r p h

/-- C1: for every stream whose probe bytes equal one of the fixed magic
constants while no earlier-priority branch condition holds,
detect_filetype returns the corresponding tag, in the strict source order
ASDF, gzip plus FITS, JP2, HDF5, CDF with the first match winning: the
80-byte probe starting with the ASDF marker yields asdf, the first 8
bytes equal to the HDF5 magic yield hdf5, a first-4-byte hex rendering
among the CDF magic strings yields cdf, and a two-line concatenation
equal to a JP2 signature box yields jp2. -/
theorem detect_magic_constants (c g : List Nat) :
    (asdfHit c → detect_filetype c g = some ("asdf")) ∧
    (hdf5Hit c → ¬ asdfHit c → ¬ fitsHit c g → ¬ jp2Hit c →
      detect_filetype c g = some ("hdf5")) ∧
    (cdfHit c → ¬ asdfHit c → ¬ fitsHit c g → ¬ jp2Hit c → ¬ hdf5Hit c →
      detect_filetype c g = some ("cdf")) ∧
    (jp2Hit c → ¬ asdfHit c → ¬ fitsHit c g → detect_filetype c g = some ("jp2")) := by
  refine ⟨fun h1 => ?_, fun h1 h2 h3 h4 => ?_, fun h1 h2 h3 h4 h5 => ?_, fun h1 h2 h3 => ?_⟩ <;>
    unfold detect_filetype
  · rw [if_pos h1]
  · rw [if_neg h2, if_neg h3, if_neg h4, if_pos h1]
  · rw [if_neg h2, if_neg h3, if_neg h4, if_neg h5, if_pos h1]
  · rw [if_neg h2, if_neg h3, if_pos h1]

/-- Witness for C1: the HDF5 magic itself satisfies the HDF5 branch and
none of the earlier branches, and is detected as hdf5. -/
theorem detect_magic_constants_witness :
    detect_filetype hdf5Magic [] = some ("hdf5") :=
  (detect_magic_constants hdf5Magic []).2.1 (by decide) (by decide) (by decide) (by decide)

/-- Counterexample for C2: detect_filetype can return the tag asdf, yet
asdf is not a key of the reader registry. -/
theorem registry_missing_sniff_tag :
    detect_filetype asdfMarker [] = some ("asdf") ∧
    "asdf" ∉ (_READERS true true true).map Prod.fst := by decide

/-- C2 as amended: the registry covers every tag of the extension table,
but not every tag the signature matcher can produce: asdf, hdf5 and cdf
are all returned by detect_filetype on suitable streams and none of them
is a registry key. -/
theorem registry_covers_extension_tags (aF aJ aA : Bool) :
    (_KNOWN_EXTENSIONS.all (fun grp => ((_READERS aF aJ aA).map Prod.fst).contains grp.2)) = true ∧
    "asdf" ∉ (_READERS aF aJ aA).map Prod.fst ∧
    "hdf5" ∉ (_READERS aF aJ aA).map Prod.fst ∧
    "cdf" ∉ (_READERS aF aJ aA).map Prod.fst ∧
    detect_filetype asdfMarker [] = some ("asdf") ∧
    detect_filetype hdf5Magic [] = some ("hdf5") ∧
    detect_filetype [205, 243, 0, 1] [] = some ("cdf") := by
  cases aF <;> cases aJ <;> cases aA <;> decide

/-- Counterexample for C3: on a stream starting with the ASDF marker and a
path ending in fits, detection succeeds with the tag asdf, yet the
dispatcher still falls back to the extension table and invokes the fits
reader, so extension fallback is not restricted to detection failure. -/
theorem read_falls_back_after_detect_success :
    detect_filetype [35, 65, 83, 68, 70] [] = some ("asdf") ∧
    _read true true true ("x.fits") [35, 65, 83, 68, 70] [] none =
      ReadOutcome.invoked ("fits") 4 := by decide

/-- C3 as amended: with no explicit filetype, a detected tag is looked up
and invoked only when it is a registry key; the extension fallback runs
both when detection raises and when the detected tag is not a registry
key. -/
theorem read_fallback_condition (aF aJ aA : Bool) (path : String) (c g : List Nat) :
    (∀ tag, detect_filetype c g = some tag →
        tag ∈ (_READERS aF aJ aA).map Prod.fst →
        _read aF aJ aA path c g none =
          match readersGetItem (_READERS aF aJ aA) tag with
          | LookupResult.ok _ => ReadOutcome.invoked tag (posAfterSniff c)
          | LookupResult.readerError m => ReadOutcome.readerUnavailable m
          | LookupResult.keyError k => ReadOutcome.keyError k) ∧
    (∀ tag, detect_filetype c g = some tag →
        tag ∉ (_READERS aF aJ aA).map Prod.fst →
        _read aF aJ aA path c g none = extFallback aF aJ aA path none (posAfterSniff c)) ∧
    (detect_filetype c g = none →
        _read aF aJ aA path c g none = extFallback aF aJ aA path none (posAfterSniff c)) := by
  refine ⟨fun tag hdet hmem => ?_, fun tag hdet hmem => ?_, fun hdet => ?_⟩
  · simp only [_read, hdet]
    unfold readDetected
    rw [if_pos hmem]
  · simp only [_read, hdet]
    unfold readDetected
    rw [if_neg hmem]
  · simp only [_read, hdet]

/-- Witness for C3 as amended: a stream detected as fits is dispatched to
the fits reader directly. -/
theorem read_fallback_condition_witness :
    _read true true true ("p") [83, 73, 77, 80, 76, 69, 61] [] none =
      ReadOutcome.invoked ("fits") 4 := by
  have h := (read_fallback_condition true true true ("p")
    [83, 73, 77, 80, 76, 69, 61] []).1 ("fits") (by decide) (by decide)
  exact h.trans (by decide)

/-- C4: an explicit filetype that is a bare extension string such as j2k,
although contained in an extension group, makes the dispatcher subscript
the registry immediately and propagate a KeyError; the extension fallback
the claim and the docstring describe is never reached. -/
theorem read_explicit_extension_keyerror (aF aJ aA : Bool) (path : String) (c g : List Nat) :
    _read aF aJ aA path c g (some ("j2k")) = ReadOutcome.keyError ("j2k") ∧
    (_KNOWN_EXTENSIONS.any (fun grp => grp.1.contains ("j2k"))) = true :=
  ⟨rfl, by decide⟩

/-- Counterexample for C7: in the sniffing dispatch path the handler is
invoked with the stream cursor at byte 4, the position the last probe of
detect_filetype left, not at 0. -/
theorem handler_invoked_at_nonzero_pos :
    _read true true true ("p") [66, 73, 84, 61] [] none = ReadOutcome.invoked ("fits") 4 ∧
    (4 : Nat) ≠ 0 := by decide

/-- C7 as amended: in the explicit-filetype path the handler receives the
stream at position 0, while in every sniffed path (detected tag or
extension fallback) it receives the stream at the position detection left,
namely 4 for streams of at least 4 bytes; no re-seek to 0 happens between
sniffing and the handler call. -/
theorem read_cursor_positions (aF aJ aA : Bool) (path : String) (c g : List Nat) :
    (∀ ft r p, _read aF aJ aA path c g (some ft) = ReadOutcome.invoked r p → p = 0) ∧
    (∀ r p, _read aF aJ aA path c g none = ReadOutcome.invoked r p → p = posAfterSniff c) := by
  constructor
  · intro ft r p h
    simp only [_read] at h
    split at h
    · injection h with h1 h2; exact h2.symm
    · cases h
    · cases h
  · intro r p h
    simp only [_read] at h
    split at h
    · exact readDetected_invoked_pos _ _ _ _ _ _ _ _ h
    · exact extFallback_invoked_pos _ _ _ _ _ _ _ _ h

/-- Witness for C7 as amended: on a 7-byte FITS stream the sniffed
dispatch hands the reader the cursor at position 4. -/
theorem read_cursor_positions_witness :
    (4 : Nat) = posAfterSniff [83, 73, 77, 80, 76, 69, 61] :=
  (read_cursor_positions true true true ("p") [83, 73, 77, 80, 76, 69, 61] []).2
    ("fits") 4 (by decide)

/-- Counterexample for C5: a probe whose very first byte is the equals
byte, with zero keyword characters, is detected as fits, because the
source regex repetition bound is zero to eight, not one to eight. -/
theorem fits_zero_keyword_detected :
    detect_filetype [61] [] = some ("fits") := by decide

/-- C5 as amended: detect_filetype returns fits exactly when the possibly
gzip-decompressed 80-byte probe starts with zero to eight
uppercase-alphanumeric-or-underscore bytes followed by zero or more
spaces and an equals byte. -/
theorem detect_fits_iff (c g : List Nat) :
    detect_filetype c g = some ("fits") ↔ fitsHit c g := by
  constructor
  · intro h
    unfold detect_filetype at h
    by_cases ha : asdfHit c
    · rw [if_pos ha] at h; exact absurd h (by decide)
    · rw [if_neg ha] at h
      by_cases hf : fitsHit c g
      · exact hf
      · rw [if_neg hf] at h
        by_cases hj : jp2Hit c
        · rw [if_pos hj] at h; exact absurd h (by decide)
        · rw [if_neg hj] at h
          by_cases hh : hdf5Hit c
          · rw [if_pos hh] at h; exact absurd h (by decide)
          · rw [if_neg hh] at h
            by_cases hc : cdfHit c
            · rw [if_pos hc] at h; exact absurd h (by decide)
            · rw [if_neg hc] at h; exact absurd h (by decide)
  · intro hf
    unfold detect_filetype
    rw [if_neg (fits_not_asdf c g hf), if_pos hf]

/-- C6: for every stream whose first 3 bytes equal the gzip magic and
whose decompressed first 80 bytes match the FITS keyword-card regex,
detect_filetype returns fits. -/
theorem detect_gzip_fits (c g : List Nat) (h3 : c.take 3 = gzipMagic)
    (hf : fitsMatch 8 (g.take 80) = true) :
    detect_filetype c g = some ("fits") := by
  have hg : gzipHit c := by
    unfold gzipHit
    rw [List.take_take]
    have hm : min 3 80 = 3 := by norm_num
    rw [hm]; exact h3
  have hfits : fitsHit c g := by
    unfold fitsHit effective80
    rw [if_pos hg]; exact hf
  unfold detect_filetype
  rw [if_neg (fits_not_asdf c g hfits), if_pos hfits]

/-- Witness for C6: a gzip-magic stream whose decompressed content starts
with an equals byte is detected as fits. -/
theorem detect_gzip_fits_witness :
    detect_filetype [31, 139, 8, 200] [61] = some ("fits") :=
  detect_gzip_fits [31, 139, 8, 200] [61] (by decide) (by decide)

/-- C8: write_file with filetype auto resolves the tag solely from the
destination suffix (two paths with equal suffix produce identical
outcomes, and no byte content is consulted at all), and a resolved token
contained in no extension group produces the unsupported ValueError
without invoking any handler. -/
theorem write_file_auto_suffix (aF aJ aA : Bool) :
    (∀ p1 p2, pySuffixTail p1 = pySuffixTail p2 →
        write_file aF aJ aA p1 ("auto") = write_file aF aJ aA p2 ("auto")) ∧
    (∀ p, _KNOWN_EXTENSIONS.find? (fun grp => grp.1.contains (pySuffixTail p)) = none →
        write_file aF aJ aA p ("auto") =
          WriteOutcome.unsupported (unsupportedMsg (pySuffixTail p))) := by
  constructor
  · intro p1 p2 h
    unfold write_file
    rw [h]
  · intro p hfind
    have e : write_file aF aJ aA p ("auto") = writeResolved aF aJ aA (pySuffixTail p) := rfl
    rw [e]
    unfold writeResolved
    rw [hfind]

/-- Witness for C8: writing to a destination with the unsupported suffix
xyz fails with the ValueError message naming the token xyz. -/
theorem write_file_auto_suffix_witness :
    write_file true true true ("out.xyz") ("auto") =
      WriteOutcome.unsupported ("The filetype provided (xyz) is not supported") := by
  have h := (write_file_auto_suffix true true true).2 ("out.xyz") (by decide)
  exact h.trans (by decide)

/-- C9: subscripting the registry at a tag whose entry exists but whose
reader module is absent raises ReaderError with a message that names the
missing reader, while a tag with no entry at all propagates a KeyError,
and the two failures are distinct values. -/
theorem readers_lookup_unavailable (aF aJ aA : Bool) :
    (aF = false → readersGetItem (_READERS aF aJ aA) ("fits") =
      LookupResult.readerError (readerUnavailableMsg ("fits"))) ∧
    (aJ = false → readersGetItem (_READERS aF aJ aA) ("jp2") =
      LookupResult.readerError (readerUnavailableMsg ("jp2"))) ∧
    (aA = false → readersGetItem (_READERS aF aJ aA) ("ana") =
      LookupResult.readerError (readerUnavailableMsg ("ana"))) ∧
    (∀ key, key ∉ (_READERS aF aJ aA).map Prod.fst →
      readersGetItem (_READERS aF aJ aA) key = LookupResult.keyError key) ∧
    (∀ key, ∃ s t, readerUnavailableMsg key = s ++ key ++ t) ∧
    (∀ m k, LookupResult.readerError m ≠ LookupResult.keyError k) := by
  refine ⟨fun h => ?_, fun h => ?_, fun h => ?_, fun key hk => ?_, fun key => ?_,
    fun m k hmk => ?_⟩
  · subst h; rfl
  · subst h; rfl
  · subst h; rfl
  · have h1 : (key == "fits") = false := by
      rw [beq_eq_false_iff_ne]
      intro e; subst e; exact hk (by simp [_READERS])
    have h2 : (key == "jp2") = false := by
      rw [beq_eq_false_iff_ne]
      intro e; subst e; exact hk (by simp [_READERS])
    have h3 : (key == "ana") = false := by
      rw [beq_eq_false_iff_ne]
      intro e; subst e; exact hk (by simp [_READERS])
    simp [readersGetItem, List.lookup, _READERS, h1, h2, h3]
  · exact ⟨"The Reader sunpy.io.",
      " is not available, please check that you have the required dependencies installed.", rfl⟩
  · cases hmk

/-- Witness for C9: with the fits reader absent, subscripting fits gives
the ReaderError naming fits, while the unknown key asdf gives KeyError. -/
theorem readers_lookup_unavailable_witness :
    readersGetItem (_READERS false true true) ("fits") =
      LookupResult.readerError (readerUnavailableMsg ("fits")) ∧
    readersGetItem (_READERS false true true) ("asdf") = LookupResult.keyError ("asdf") :=
  ⟨(readers_lookup_unavailable false true true).1 rfl,
   (readers_lookup_unavailable false true true).2.2.2.1 ("asdf") (by decide)⟩

/-- C10: write_file with the explicit canonical tag ana always fails with
the unsupported ValueError although ana is a registry key, because the
token is matched against the extension tuples and the ana group holds
only fz and f0; the explicit tags fits and jp2 succeed because each is a
member of its own extension tuple. -/
theorem write_file_ana_rejected (aF aJ aA : Bool) (path : String) :
    write_file aF aJ aA path ("ana") = WriteOutcome.unsupported (unsupportedMsg ("ana")) ∧
    "ana" ∈ (_READERS aF aJ aA).map Prod.fst ∧
    (_KNOWN_EXTENSIONS.all (fun grp => !grp.1.contains ("ana"))) = true ∧
    (aF = true → write_file aF aJ aA path ("fits") = WriteOutcome.write ("fits")) ∧
    (aJ = true → write_file aF aJ aA path ("jp2") = WriteOutcome.write ("jp2")) ∧
    (_KNOWN_EXTENSIONS.any (fun grp => grp.2 == "fits" && grp.1.contains ("fits"))) = true ∧
    (_KNOWN_EXTENSIONS.any (fun grp => grp.2 == "jp2" && grp.1.contains ("jp2"))) = true := by
  refine ⟨rfl, by simp [_READERS], by decide, fun h => ?_, fun h => ?_, by decide, by decide⟩
  · subst h; rfl
  · subst h; rfl

/-- Witness for C10: with all readers available, writing with explicit
tag ana fails while explicit tag fits invokes the fits writer. -/
theorem write_file_ana_rejected_witness :
    write_file true true true ("out") ("ana") =
      WriteOutcome.unsupported (unsupportedMsg ("ana")) ∧
    write_file true true true ("out") ("fits") = WriteOutcome.write ("fits") :=
  ⟨(write_file_ana_rejected true true true ("out")).1,
   (write_file_ana_rejected true true true ("out")).2.2.2.1 rfl⟩

end SunpyIO
